import Mathlib

/-!
Verification of the irrigation decision engine in `src/AI.py`
(repository FamingaAImodal).

The core of the program is the class `IrrigationDecisionEngine`: pure
classifiers for soil moisture, weather, and nutrients, an alert/reason
collector, a first-match decision policy, and derived quantities
(evapotranspiration, irrigation amount and duration, next-check interval).
All numeric inputs are embedded as rationals, except the
evapotranspiration estimate, which involves a square root and is embedded
over the reals in a separate section below.

Python dictionaries with `.get(key, default)` access are embedded as
structures of `Option` fields read through `Option.getD`, and the crop
profile table as an association list.  Strings returned by the classifiers
are kept as strings, exactly as in the source.  The wall-clock timestamp
field of the response and the f-string formatting of reason messages are
not observable in the embedding: reasons are modelled by an inductive type
carrying the same template arguments that the source interpolates into
each message.
-/

namespace Faminga

/-- Embeds the `IrrigationAdvice` enum of `src/AI.py` (lines 15-19). -/
inductive IrrigationAdvice where
  | IRRIGATE
  | HOLD
  | ALERT
deriving DecidableEq

/-- Embeds the `AlertType` enum of `src/AI.py` (lines 22-30). -/
inductive AlertType where
  | LOW_MOISTURE
  | HIGH_MOISTURE
  | NUTRIENT_DEFICIENCY
  | PH_IMBALANCE
  | EXTREME_TEMPERATURE
  | RAIN_EXPECTED
  | SENSOR_MALFUNCTION
deriving DecidableEq

/-- The `.value` string of each `AlertType` member, as used by the source
when appending to the alerts list. -/
def AlertType.value : AlertType → String
  | .LOW_MOISTURE => "LOW_MOISTURE"
  | .HIGH_MOISTURE => "HIGH_MOISTURE"
  | .NUTRIENT_DEFICIENCY => "NUTRIENT_DEFICIENCY"
  | .PH_IMBALANCE => "PH_IMBALANCE"
  | .EXTREME_TEMPERATURE => "EXTREME_TEMPERATURE"
  | .RAIN_EXPECTED => "RAIN_EXPECTED"
  | .SENSOR_MALFUNCTION => "SENSOR_MALFUNCTION"

/-- Embeds the `CropProfile` dataclass (`src/AI.py` lines 33-48).  The
`growth_stage_factor` dict becomes an association list. -/
structure CropProfile where
  name : String
  moisture_optimal_min : ℚ
  moisture_optimal_max : ℚ
  moisture_critical_min : ℚ
  moisture_critical_max : ℚ
  ph_optimal_min : ℚ
  ph_optimal_max : ℚ
  nitrogen_min : ℚ
  phosphorus_min : ℚ
  potassium_min : ℚ
  temp_optimal_min : ℚ
  temp_optimal_max : ℚ
  growth_stage_factor : List (String × ℚ)
deriving DecidableEq

/-- The entry `CROP_PROFILES["default"]` (`src/AI.py` lines 89-97),
also used as the fallback of the lookup on line 127. -/
def default_profile : CropProfile :=
  { name := "Generic Crop"
    moisture_optimal_min := 60, moisture_optimal_max := 80
    moisture_critical_min := 40, moisture_critical_max := 90
    ph_optimal_min := 6.0, ph_optimal_max := 7.0
    nitrogen_min := 100, phosphorus_min := 40, potassium_min := 150
    temp_optimal_min := 18, temp_optimal_max := 28
    growth_stage_factor := [("default", 1.0)] }

/-- The entry `CROP_PROFILES["tomato"]` (`src/AI.py` lines 53-61). -/
def tomato_profile : CropProfile :=
  { name := "Tomato"
    moisture_optimal_min := 60, moisture_optimal_max := 80
    moisture_critical_min := 40, moisture_critical_max := 90
    ph_optimal_min := 6.0, ph_optimal_max := 6.8
    nitrogen_min := 100, phosphorus_min := 40, potassium_min := 150
    temp_optimal_min := 18, temp_optimal_max := 28
    growth_stage_factor :=
      [("seedling", 0.7), ("vegetative", 1.0), ("flowering", 1.2), ("fruiting", 1.3)] }

/-- The entry `CROP_PROFILES["maize"]` (`src/AI.py` lines 62-70). -/
def maize_profile : CropProfile :=
  { name := "Maize"
    moisture_optimal_min := 55, moisture_optimal_max := 75
    moisture_critical_min := 35, moisture_critical_max := 85
    ph_optimal_min := 5.8, ph_optimal_max := 7.0
    nitrogen_min := 120, phosphorus_min := 50, potassium_min := 100
    temp_optimal_min := 20, temp_optimal_max := 30
    growth_stage_factor :=
      [("seedling", 0.6), ("vegetative", 1.0), ("tasseling", 1.4), ("grain_fill", 1.2)] }

/-- The entry `CROP_PROFILES["potato"]` (`src/AI.py` lines 71-79). -/
def potato_profile : CropProfile :=
  { name := "Potato"
    moisture_optimal_min := 65, moisture_optimal_max := 85
    moisture_critical_min := 45, moisture_critical_max := 90
    ph_optimal_min := 5.0, ph_optimal_max := 6.5
    nitrogen_min := 110, phosphorus_min := 45, potassium_min := 180
    temp_optimal_min := 15, temp_optimal_max := 24
    growth_stage_factor :=
      [("planting", 0.5), ("vegetative", 0.8), ("tuber_init", 1.2), ("bulking", 1.4)] }

/-- The entry `CROP_PROFILES["lettuce"]` (`src/AI.py` lines 80-88). -/
def lettuce_profile : CropProfile :=
  { name := "Lettuce"
    moisture_optimal_min := 70, moisture_optimal_max := 85
    moisture_critical_min := 50, moisture_critical_max := 90
    ph_optimal_min := 6.0, ph_optimal_max := 7.0
    nitrogen_min := 80, phosphorus_min := 30, potassium_min := 120
    temp_optimal_min := 15, temp_optimal_max := 20
    growth_stage_factor :=
      [("seedling", 0.6), ("vegetative", 1.0), ("heading", 1.1)] }

/-- Embeds the static `CROP_PROFILES` table (`src/AI.py` lines 52-98). -/
def CROP_PROFILES : List (String × CropProfile) :=
  [ ("tomato", tomato_profile),
    ("maize", maize_profile),
    ("potato", potato_profile),
    ("lettuce", lettuce_profile),
    ("default", default_profile) ]

/-- Embeds the Python string method `lower()` as character-wise
lower-casing of the string data (the table keys are plain ASCII). -/
def lower (s : String) : String :=
  String.mk (s.data.map Char.toLower)

/-- Embeds the crop-profile lookup
`CROP_PROFILES.get(crop_type.lower(), CROP_PROFILES["default"])`
(`src/AI.py` line 127) for a string `crop_type`. -/
def lookupCropProfile (crop_type : String) : CropProfile :=
  ((CROP_PROFILES.lookup (lower crop_type)).getD default_profile)

/-- Embeds line 127 when the caller may pass `None` for `crop_type`
(the HTTP layer forwards `data.get("crop_type", "default")`, which is
`None` when the JSON field is null).  In Python, `None.lower()` raises
`AttributeError` before the dictionary lookup happens. -/
def lookupCropProfileOpt (crop_type : Option String) : Except String CropProfile :=
  match crop_type with
  | none => Except.error "AttributeError: NoneType object has no attribute lower"
  | some s => Except.ok (lookupCropProfile s)

/-- The growth-stage factor lookup
`crop.growth_stage_factor.get(growth_stage, 1.0)` used on lines 260
and 340 of `src/AI.py`. -/
def stage_factor (crop : CropProfile) (growth_stage : String) : ℚ :=
  ((crop.growth_stage_factor.lookup growth_stage).getD 1.0)

/-- Embeds `IrrigationDecisionEngine._analyze_moisture`
(`src/AI.py` lines 257-273). -/
def analyze_moisture (moisture : ℚ) (crop : CropProfile) (growth_stage : String) : String :=
  let sf := stage_factor crop growth_stage
  let optimal_min := crop.moisture_optimal_min * sf
  let optimal_max := crop.moisture_optimal_max * sf
  if moisture < crop.moisture_critical_min then "CRITICALLY_LOW"
  else if moisture < optimal_min then "LOW"
  else if moisture ≤ optimal_max then "OPTIMAL"
  else if moisture ≤ crop.moisture_critical_max then "HIGH"
  else "CRITICALLY_HIGH"

/-- Embeds the per-request weather record (`src/AI.py` lines 138-142 and
275-278): a dict whose fields are read with `.get(key, default)`. -/
structure WeatherData where
  rain_probability : Option ℚ
  rain_amount_mm : Option ℚ
  temperature : Option ℚ
  humidity : Option ℚ
  wind_speed : Option ℚ
deriving DecidableEq

/-- Embeds the per-request soil record (`src/AI.py` lines 130-135). -/
structure SoilData where
  soil_moisture : Option ℚ
  ph : Option ℚ
  nitrogen : Option ℚ
  phosphorus : Option ℚ
  potassium : Option ℚ
  temperature : Option ℚ
deriving DecidableEq

/-- Embeds `IrrigationDecisionEngine._analyze_weather`
(`src/AI.py` lines 275-289). -/
def analyze_weather (weather : WeatherData) : String :=
  let rain_prob := weather.rain_probability.getD 0
  let temp := weather.temperature.getD 25
  if rain_prob > 70 then "HEAVY_RAIN_EXPECTED"
  else if rain_prob > 40 then "RAIN_LIKELY"
  else if temp > 35 then "EXTREME_HEAT"
  else if temp < 5 then "EXTREME_COLD"
  else "NORMAL"

/-- Embeds `IrrigationDecisionEngine._analyze_nutrients`
(`src/AI.py` lines 291-302), branch structure preserved. -/
def analyze_nutrients (n p k : ℚ) (crop : CropProfile) : String :=
  let n_ok := n ≥ crop.nitrogen_min
  let p_ok := p ≥ crop.phosphorus_min
  let k_ok := k ≥ crop.potassium_min
  if n_ok ∧ p_ok ∧ k_ok then "ADEQUATE"
  else if ¬n_ok ∨ ¬p_ok ∨ ¬k_ok then "DEFICIENT"
  else "BORDERLINE"

/-- Embeds `IrrigationDecisionEngine._make_decision`
(`src/AI.py` lines 304-331).  The `moisture` and `crop` parameters are
kept even though the body never reads them, as in the source. -/
def make_decision (moisture : ℚ) (moisture_status : String) (weather_status : String)
    (rain_prob : ℚ) (crop : CropProfile) (alerts : List String) : IrrigationAdvice :=
  if moisture_status ∈ ["CRITICALLY_LOW", "CRITICALLY_HIGH"] then .ALERT
  else if AlertType.SENSOR_MALFUNCTION.value ∈ alerts then .ALERT
  else if weather_status ∈ ["HEAVY_RAIN_EXPECTED", "RAIN_LIKELY"] then .HOLD
  else if moisture_status ∈ ["OPTIMAL", "HIGH"] then .HOLD
  else if rain_prob > 60 then .HOLD
  else if moisture_status = "LOW" ∧ rain_prob < 30 then .IRRIGATE
  else .HOLD

/-- Embeds `IrrigationDecisionEngine._calculate_duration`
(`src/AI.py` lines 345-348); `flow_rate` defaults to 10 at the call site. -/
def calculate_duration (amount_mm : ℚ) (flow_rate : ℚ) : ℚ :=
  (amount_mm / flow_rate) * 60

/-- Embeds `IrrigationDecisionEngine._next_check_interval`
(`src/AI.py` lines 350-359). -/
def next_check_interval (decision : IrrigationAdvice) (weather : String) : ℤ :=
  if decision = .ALERT then 2
  else if decision = .IRRIGATE then 12
  else if weather ∈ ["HEAVY_RAIN_EXPECTED", "RAIN_LIKELY"] then 6
  else 24

/-- Embeds the human-readable reason messages appended by `analyze`
(`src/AI.py` lines 154, 157, 164, 171, 174, 177, 182, 187, 208).  Each
constructor records the template arguments that the source interpolates
into the corresponding f-string. -/
inductive Reason where
  | criticalLowMoisture (moisture min : ℚ)
  | criticalHighMoisture (moisture max : ℚ)
  | rainExpected (probability amount : ℚ)
  | lowNitrogen (value min : ℚ)
  | lowPhosphorus (value min : ℚ)
  | lowPotassium (value min : ℚ)
  | phImbalance (ph min max : ℚ)
  | soilTemp (temp min max : ℚ)
  | recommendedIrrigation (amount_mm duration_minutes : ℚ)
deriving DecidableEq

/-- The alerts list that `analyze` accumulates on lines 145-187 of
`src/AI.py`, in source order: moisture check, rain check, three nutrient
checks, pH check, temperature check. -/
def collectAlerts (moisture ph nitrogen phosphorus potassium soil_temp
    rain_probability : ℚ) (crop : CropProfile) : List String :=
  (if moisture < crop.moisture_critical_min then [AlertType.LOW_MOISTURE.value]
   else if moisture > crop.moisture_critical_max then [AlertType.HIGH_MOISTURE.value]
   else [])
  ++ (if rain_probability > 60 then [AlertType.RAIN_EXPECTED.value] else [])
  ++ (if nitrogen < crop.nitrogen_min then [AlertType.NUTRIENT_DEFICIENCY.value] else [])
  ++ (if phosphorus < crop.phosphorus_min then [AlertType.NUTRIENT_DEFICIENCY.value] else [])
  ++ (if potassium < crop.potassium_min then [AlertType.NUTRIENT_DEFICIENCY.value] else [])
  ++ (if ¬(crop.ph_optimal_min ≤ ph ∧ ph ≤ crop.ph_optimal_max)
      then [AlertType.PH_IMBALANCE.value] else [])
  ++ (if soil_temp < crop.temp_optimal_min ∨ soil_temp > crop.temp_optimal_max
      then [AlertType.EXTREME_TEMPERATURE.value] else [])

/-- The reasons list accumulated alongside `collectAlerts` on lines
145-187 of `src/AI.py` (same conditions, same order); the irrigation
recommendation reason of line 208 is appended later inside `analyze`. -/
def collectReasons (moisture ph nitrogen phosphorus potassium soil_temp
    rain_probability rain_amount : ℚ) (crop : CropProfile) : List Reason :=
  (if moisture < crop.moisture_critical_min
   then [Reason.criticalLowMoisture moisture crop.moisture_critical_min]
   else if moisture > crop.moisture_critical_max
   then [Reason.criticalHighMoisture moisture crop.moisture_critical_max]
   else [])
  ++ (if rain_probability > 60 then [Reason.rainExpected rain_probability rain_amount] else [])
  ++ (if nitrogen < crop.nitrogen_min then [Reason.lowNitrogen nitrogen crop.nitrogen_min] else [])
  ++ (if phosphorus < crop.phosphorus_min
      then [Reason.lowPhosphorus phosphorus crop.phosphorus_min] else [])
  ++ (if potassium < crop.potassium_min
      then [Reason.lowPotassium potassium crop.potassium_min] else [])
  ++ (if ¬(crop.ph_optimal_min ≤ ph ∧ ph ≤ crop.ph_optimal_max)
      then [Reason.phImbalance ph crop.ph_optimal_min crop.ph_optimal_max] else [])
  ++ (if soil_temp < crop.temp_optimal_min ∨ soil_temp > crop.temp_optimal_max
      then [Reason.soilTemp soil_temp crop.temp_optimal_min crop.temp_optimal_max] else [])

/-- Embeds the decision record built on lines 211-250 of `src/AI.py`.
The wall-clock `timestamp` field is not modelled; the real-valued
evapotranspiration block is modelled separately (`calculate_et`,
`water_loss_rate` below) because it involves a square root.  The
`alerts` field of the source is `list(set(alerts))`, whose order Python
leaves unspecified; it is embedded as `List.dedup` of the accumulated
list. -/
structure Response where
  decision : IrrigationAdvice
  confidence : ℚ
  crop : String
  growth_stage : String
  moisture : ℚ
  moisture_status : String
  ph : ℚ
  soil_temperature : ℚ
  nitrogen : ℚ
  phosphorus : ℚ
  potassium : ℚ
  nutrient_status : String
  weather_temperature : ℚ
  humidity : ℚ
  rain_probability : ℚ
  rain_amount : ℚ
  wind_speed : ℚ
  weather_status : String
  alerts : List String
  reasons : List Reason
  irrigation_amount_mm : ℚ
  irrigation_duration_minutes : ℚ
  next_check_hours : ℤ
deriving DecidableEq

/-- Embeds `IrrigationDecisionEngine.analyze` (`src/AI.py` lines
107-255), minus the log append, which is `engine_analyze` below.
Defaults for missing record fields are those of lines 130-142; the
irrigation amount and duration are 0 unless the decision is `IRRIGATE`
(lines 199-208). -/
def analyze (soil_data : SoilData) (weather_data : WeatherData)
    (crop_type : String) (growth_stage : String) (field_capacity : ℚ) : Response :=
  let crop := lookupCropProfile crop_type
  let moisture := soil_data.soil_moisture.getD 50
  let ph := soil_data.ph.getD 6.5
  let nitrogen := soil_data.nitrogen.getD 100
  let phosphorus := soil_data.phosphorus.getD 40
  let potassium := soil_data.potassium.getD 150
  let soil_temp := soil_data.temperature.getD 22
  let rain_probability := weather_data.rain_probability.getD 0
  let rain_amount := weather_data.rain_amount_mm.getD 0
  let temperature := weather_data.temperature.getD 25
  let humidity := weather_data.humidity.getD 60
  let wind_speed := weather_data.wind_speed.getD 5
  let confidence_score : ℚ := 100
  let moisture_status := analyze_moisture moisture crop growth_stage
  let weather_status := analyze_weather weather_data
  let nutrient_status := analyze_nutrients nitrogen phosphorus potassium crop
  let alerts := collectAlerts moisture ph nitrogen phosphorus potassium soil_temp
    rain_probability crop
  let reasons := collectReasons moisture ph nitrogen phosphorus potassium soil_temp
    rain_probability rain_amount crop
  let decision := make_decision moisture moisture_status weather_status
    rain_probability crop alerts
  let irrigation_amount :=
    if decision = .IRRIGATE then ((crop.moisture_optimal_max - moisture) / 100) * field_capacity
    else 0
  let irrigation_duration :=
    if decision = .IRRIGATE then calculate_duration irrigation_amount 10 else 0
  { decision := decision
    confidence := confidence_score
    crop := crop.name
    growth_stage := growth_stage
    moisture := moisture
    moisture_status := moisture_status
    ph := ph
    soil_temperature := soil_temp
    nitrogen := nitrogen
    phosphorus := phosphorus
    potassium := potassium
    nutrient_status := nutrient_status
    weather_temperature := temperature
    humidity := humidity
    rain_probability := rain_probability
    rain_amount := rain_amount
    wind_speed := wind_speed
    weather_status := weather_status
    alerts := alerts.dedup
    reasons := reasons
      ++ (if decision = .IRRIGATE
          then [Reason.recommendedIrrigation irrigation_amount irrigation_duration] else [])
    irrigation_amount_mm := irrigation_amount
    irrigation_duration_minutes := irrigation_duration
    next_check_hours := next_check_interval decision weather_status }

/-- Embeds one call of the engine method including the log append of
line 253 (`self.decision_log.append(response)`): explicit state passing
of the shared `decision_log` list. -/
def engine_analyze (log : List Response) (soil_data : SoilData)
    (weather_data : WeatherData) (crop_type : String) (growth_stage : String)
    (field_capacity : ℚ) : Response × List Response :=
  let response := analyze soil_data weather_data crop_type growth_stage field_capacity
  (response, log ++ [response])

/-- Rendering of the decision policy exactly as the specification words
it (spec section 4.6), to be compared with `make_decision`: ordered rule
list, first match wins. -/
def decisionPolicySpec (moisture_status weather_status : String) (rain_probability : ℚ)
    (alerts : List String) : IrrigationAdvice :=
  if moisture_status = "CRITICALLY_LOW" ∨ moisture_status = "CRITICALLY_HIGH" then .ALERT
  else if "SENSOR_MALFUNCTION" ∈ alerts then .ALERT
  else if weather_status = "HEAVY_RAIN_EXPECTED" ∨ weather_status = "RAIN_LIKELY" then .HOLD
  else if moisture_status = "OPTIMAL" ∨ moisture_status = "HIGH" then .HOLD
  else if rain_probability > 60 then .HOLD
  else if moisture_status = "LOW" ∧ rain_probability < 30 then .IRRIGATE
  else .HOLD

/-- Rendering of the moisture classifier exactly as the specification
words it (spec section 4.2), to be compared with `analyze_moisture`:
stage factor defaults to 1.0 for an unknown stage, optimal bounds are
multiplied by it, critical bounds are not. -/
def moistureClassifierSpec (moisture : ℚ) (crop : CropProfile) (growth_stage : String) : String :=
  let factor := (crop.growth_stage_factor.lookup growth_stage).getD 1.0
  if moisture < crop.moisture_critical_min then "CRITICALLY_LOW"
  else if moisture < crop.moisture_optimal_min * factor then "LOW"
  else if moisture ≤ crop.moisture_optimal_max * factor then "OPTIMAL"
  else if moisture ≤ crop.moisture_critical_max then "HIGH"
  else "CRITICALLY_HIGH"

/-- Embeds `IrrigationDecisionEngine._calculate_et`
(`src/AI.py` lines 333-343) over the reals.  The Python power
`wind ** 0.5` is the real power `wind ^ (0.5 : ℝ)`; the growth-stage
factor is the same `stage_factor` lookup used by `analyze_moisture`. -/
noncomputable def calculate_et (temp humidity wind : ℝ) (growth_stage : String)
    (crop : CropProfile) : ℝ :=
  let base_et := 0.0023 * (temp + 17.8) * (temp - humidity / 10) * wind ^ (0.5 : ℝ)
  let sf : ℝ := (stage_factor crop growth_stage : ℚ)
  let et_daily := base_et * sf * 1.2
  max 0 et_daily

/-- Embeds the qualitative banding of the evapotranspiration rate on
line 240 of `src/AI.py`. -/
noncomputable def water_loss_rate (et_rate : ℝ) : String :=
  if 3 ≤ et_rate ∧ et_rate ≤ 7 then "moderate"
  else if et_rate < 3 then "low"
  else "high"

/-! ### Helper lemmas -/

theorem lookup_tomato : lookupCropProfile "tomato" = tomato_profile := rfl

theorem lookup_maize : lookupCropProfile "maize" = maize_profile := rfl

theorem lookup_potato : lookupCropProfile "potato" = potato_profile := rfl

theorem sf_tomato_vegetative : stage_factor tomato_profile "vegetative" = 1.0 := rfl

theorem sf_maize_tasseling : stage_factor maize_profile "tasseling" = 1.4 := rfl

theorem sf_potato_planting : stage_factor potato_profile "planting" = 0.5 := rfl

theorem analyze_moisture_status_def (s : SoilData) (w : WeatherData) (ct gs : String)
    (fc : ℚ) :
    (analyze s w ct gs fc).moisture_status
      = analyze_moisture (s.soil_moisture.getD 50) (lookupCropProfile ct) gs := rfl

theorem analyze_decision_def (s : SoilData) (w : WeatherData) (ct gs : String) (fc : ℚ) :
    (analyze s w ct gs fc).decision
      = make_decision (s.soil_moisture.getD 50)
          (analyze_moisture (s.soil_moisture.getD 50) (lookupCropProfile ct) gs)
          (analyze_weather w) (w.rain_probability.getD 0) (lookupCropProfile ct)
          (collectAlerts (s.soil_moisture.getD 50) (s.ph.getD 6.5) (s.nitrogen.getD 100)
            (s.phosphorus.getD 40) (s.potassium.getD 150) (s.temperature.getD 22)
            (w.rain_probability.getD 0) (lookupCropProfile ct)) := rfl

theorem analyze_amount_def (s : SoilData) (w : WeatherData) (ct gs : String) (fc : ℚ) :
    (analyze s w ct gs fc).irrigation_amount_mm
      = if (analyze s w ct gs fc).decision = .IRRIGATE
        then ((lookupCropProfile ct).moisture_optimal_max - s.soil_moisture.getD 50) / 100 * fc
        else 0 := rfl

theorem analyze_duration_def (s : SoilData) (w : WeatherData) (ct gs : String) (fc : ℚ) :
    (analyze s w ct gs fc).irrigation_duration_minutes
      = if (analyze s w ct gs fc).decision = .IRRIGATE
        then calculate_duration (analyze s w ct gs fc).irrigation_amount_mm 10
        else 0 := rfl

/-! ### Claims -/

/-- C1: The decision policy is a pure total function evaluated as an
ordered rule list, first match wins: for every moisture classification,
weather classification, rain probability and alert set, it returns ALERT
if the moisture classification is CRITICALLY_LOW or CRITICALLY_HIGH; else
ALERT if SENSOR_MALFUNCTION is in the alert set; else HOLD if the weather
classification is HEAVY_RAIN_EXPECTED or RAIN_LIKELY; else HOLD if the
moisture classification is OPTIMAL or HIGH; else HOLD if rain probability
is above 60; else IRRIGATE if the moisture classification is LOW and rain
probability is below 30; else HOLD. -/
theorem decision_policy_first_match (moisture : ℚ) (moisture_status weather_status : String)
    (rain_prob : ℚ) (crop : CropProfile) (alerts : List String) :
    make_decision moisture moisture_status weather_status rain_prob crop alerts
      = decisionPolicySpec moisture_status weather_status rain_prob alerts := by
  unfold make_decision decisionPolicySpec
  simp only [AlertType.value, List.mem_cons, List.not_mem_nil, or_false]

/-- C2: For every moisture value, crop profile and growth-stage name, the
moisture classifier returns exactly one of five grades by first-match
priority: CRITICALLY_LOW if moisture is below critical_min, else LOW if
moisture is below optimal_min times the stage factor, else OPTIMAL if
moisture is at most optimal_max times the stage factor, else HIGH if
moisture is at most critical_max, else CRITICALLY_HIGH — where the stage
factor defaults to 1.0 for an unknown stage and the critical bounds are
not multiplied by the stage factor. -/
theorem moisture_classifier_five_grades (m : ℚ) (crop : CropProfile) (gs : String) :
    analyze_moisture m crop gs = moistureClassifierSpec m crop gs
    ∧ analyze_moisture m crop gs
        ∈ ["CRITICALLY_LOW", "LOW", "OPTIMAL", "HIGH", "CRITICALLY_HIGH"] := by
  constructor
  · rfl
  · unfold analyze_moisture
    split_ifs <;> simp_all <;> split_ifs <;> simp_all

/-- C3 counterexample: for crop potato at growth stage planting (stage
factor 0.5), moisture 40 lies inside the stage-adjusted optimal band
[32.5, 42.5], yet the classifier returns CRITICALLY_LOW (since 40 is
below the critical minimum 45), not OPTIMAL. -/
theorem optimal_band_counterexample :
    potato_profile.moisture_optimal_min * stage_factor potato_profile "planting" ≤ 40
    ∧ (40 : ℚ) ≤ potato_profile.moisture_optimal_max * stage_factor potato_profile "planting"
    ∧ analyze_moisture 40 (lookupCropProfile "potato") "planting" = "CRITICALLY_LOW"
    ∧ analyze_moisture 40 (lookupCropProfile "potato") "planting" ≠ "OPTIMAL" := by
  refine ⟨?_, ?_, ?_, ?_⟩
  · rw [sf_potato_planting]; norm_num [potato_profile]
  · rw [sf_potato_planting]; norm_num [potato_profile]
  · rw [lookup_potato]
    norm_num [analyze_moisture, stage_factor, potato_profile, List.lookup]
  · rw [lookup_potato]
    norm_num [analyze_moisture, stage_factor, potato_profile, List.lookup]
    decide

/-- C3 (amended): for every moisture value m, crop and growth stage such
that stage-adjusted optimal_min ≤ m ≤ stage-adjusted optimal_max AND m is
not below the (non-adjusted) critical minimum, the moisture classifier
returns OPTIMAL, and — when no rain or alert rule overrides — the
decision policy returns HOLD on that classification. -/
theorem optimal_band_amended (m : ℚ) (crop : CropProfile) (gs : String)
    (hcrit : crop.moisture_critical_min ≤ m)
    (hlo : crop.moisture_optimal_min * stage_factor crop gs ≤ m)
    (hhi : m ≤ crop.moisture_optimal_max * stage_factor crop gs) :
    analyze_moisture m crop gs = "OPTIMAL"
    ∧ ∀ (ws : String) (rp : ℚ) (alerts : List String),
        ws ≠ "HEAVY_RAIN_EXPECTED" → ws ≠ "RAIN_LIKELY" →
        "SENSOR_MALFUNCTION" ∉ alerts →
        make_decision m (analyze_moisture m crop gs) ws rp crop alerts = .HOLD := by
  have hopt : analyze_moisture m crop gs = "OPTIMAL" := by
    unfold analyze_moisture
    rw [if_neg (not_lt.mpr hcrit), if_neg (not_lt.mpr hlo), if_pos hhi]
  refine ⟨hopt, ?_⟩
  intro ws rp alerts h1 h2 h3
  rw [hopt]
  simp [make_decision, AlertType.value, h1, h2, h3]

/-- Closed witness for the amended C3: tomato at stage vegetative with
moisture 70 is classified OPTIMAL, and with weather NORMAL, rain
probability 0 and no alerts the decision is HOLD. -/
theorem optimal_band_amended_witness :
    analyze_moisture 70 (lookupCropProfile "tomato") "vegetative" = "OPTIMAL"
    ∧ make_decision 70 (analyze_moisture 70 (lookupCropProfile "tomato") "vegetative")
        "NORMAL" 0 (lookupCropProfile "tomato") [] = .HOLD := by
  have h := optimal_band_amended 70 (lookupCropProfile "tomato") "vegetative"
    (by rw [lookup_tomato]; norm_num [tomato_profile])
    (by rw [lookup_tomato, sf_tomato_vegetative]; norm_num [tomato_profile])
    (by rw [lookup_tomato, sf_tomato_vegetative]; norm_num [tomato_profile])
  exact ⟨h.1, h.2 "NORMAL" 0 [] (by decide) (by decide) (by simp)⟩

/-- C4 counterexample: a `None` crop type does not fall back to the
default profile — the `crop_type.lower()` call raises `AttributeError`
before the table is consulted. -/
theorem crop_lookup_none_counterexample :
    lookupCropProfileOpt none
      = Except.error "AttributeError: NoneType object has no attribute lower"
    ∧ lookupCropProfileOpt none ≠ Except.ok default_profile := by
  exact ⟨rfl, by simp [lookupCropProfileOpt]⟩

/-- C4 (amended): crop-profile lookup is total for every string key:
matching is case-insensitive (the key is lower-cased before the table is
consulted, so keys with equal lower-casings agree), any unmatched string
key — including the empty string — returns the default profile, and
lookup of a string never fails; a `None` key, however, raises
`AttributeError` rather than returning the default profile. -/
theorem crop_lookup_total (ct₁ ct₂ : String) :
    (lower ct₁ = lower ct₂ → lookupCropProfile ct₁ = lookupCropProfile ct₂)
    ∧ (CROP_PROFILES.lookup (lower ct₁) = none → lookupCropProfile ct₁ = default_profile)
    ∧ lookupCropProfileOpt (some ct₁) = Except.ok (lookupCropProfile ct₁)
    ∧ lookupCropProfile "" = default_profile := by
  refine ⟨?_, ?_, rfl, rfl⟩
  · intro h
    unfold lookupCropProfile
    rw [h]
  · intro h
    unfold lookupCropProfile
    rw [h]
    rfl

/-- Closed witness for the amended C4: the key BANANA is absent from the
table after lower-casing, so both BANANA and banana return the default
profile, and equally-lower-casing keys agree. -/
theorem crop_lookup_total_witness :
    lookupCropProfile "BANANA" = default_profile
    ∧ lookupCropProfile "BANANA" = lookupCropProfile "banana"
    ∧ lookupCropProfileOpt (some "BANANA") = Except.ok (lookupCropProfile "BANANA") := by
  have h := crop_lookup_total "BANANA" "banana"
  exact ⟨h.2.1 rfl, h.1 rfl, h.2.2.1⟩

/-- C5: for every moisture value strictly below the crop's critical
minimum, and for all values of every other input, the moisture
classifier returns CRITICALLY_LOW and the decision of `analyze` is
ALERT. -/
theorem critically_low_always_alert (s : SoilData) (w : WeatherData) (ct gs : String)
    (fc : ℚ) (h : s.soil_moisture.getD 50 < (lookupCropProfile ct).moisture_critical_min) :
    (analyze s w ct gs fc).moisture_status = "CRITICALLY_LOW"
    ∧ (analyze s w ct gs fc).decision = .ALERT := by
  have hms : analyze_moisture (s.soil_moisture.getD 50) (lookupCropProfile ct) gs
      = "CRITICALLY_LOW" := by
    unfold analyze_moisture
    rw [if_pos h]
  constructor
  · rw [analyze_moisture_status_def]; exact hms
  · rw [analyze_decision_def, hms]
    simp [make_decision]

/-- Closed witness for C5: moisture 25 on tomato (critical minimum 40)
gives classification CRITICALLY_LOW and decision ALERT. -/
theorem critically_low_always_alert_witness :
    (analyze (SoilData.mk (some 25) none none none none none)
        (WeatherData.mk none none none none none) "tomato" "vegetative" 100).moisture_status
      = "CRITICALLY_LOW"
    ∧ (analyze (SoilData.mk (some 25) none none none none none)
        (WeatherData.mk none none none none none) "tomato" "vegetative" 100).decision
      = .ALERT := by
  exact critically_low_always_alert _ _ _ _ _
    (by rw [lookup_tomato]; norm_num [tomato_profile])

theorem make_decision_irrigate_implies_low (m : ℚ) (ms ws : String) (rp : ℚ)
    (crop : CropProfile) (al : List String)
    (h : make_decision m ms ws rp crop al = .IRRIGATE) : ms = "LOW" := by
  unfold make_decision at h
  split_ifs at h <;> simp_all

theorem sensor_malfunction_never_collected
    (moisture ph nitrogen phosphorus potassium soil_temp rain_probability : ℚ)
    (crop : CropProfile) :
    "SENSOR_MALFUNCTION" ∉ collectAlerts moisture ph nitrogen phosphorus potassium
      soil_temp rain_probability crop := by
  unfold collectAlerts
  simp only [AlertType.value, List.mem_append, List.mem_singleton]
  split_ifs <;> simp

theorem analyze_weather_above_sixty (w : WeatherData) (rp : ℚ)
    (h60 : 60 < w.rain_probability.getD 0) :
    analyze_weather w = "HEAVY_RAIN_EXPECTED" ∨ analyze_weather w = "RAIN_LIKELY" := by
  unfold analyze_weather
  by_cases h70 : w.rain_probability.getD 0 > 70
  · rw [if_pos h70]; left; rfl
  · rw [if_neg h70, if_pos (by linarith)]; right; rfl

theorem scenarioB_decision :
    (analyze (SoilData.mk (some 50) none none none none none)
        (WeatherData.mk (some 20) none none none none) "tomato" "vegetative" 100).decision
      = .IRRIGATE := by
  rw [analyze_decision_def, lookup_tomato]
  dsimp only [Option.getD]
  have h1 : analyze_moisture 50 tomato_profile "vegetative" = "LOW" := by
    simp only [analyze_moisture]
    rw [sf_tomato_vegetative]
    norm_num [tomato_profile]
  have h2 : analyze_weather (WeatherData.mk (some 20) none none none none) = "NORMAL" := by
    simp only [analyze_weather]
    dsimp only [Option.getD]
    norm_num
  have h3 : collectAlerts 50 6.5 100 40 150 22 20 tomato_profile = [] := by
    norm_num [collectAlerts, AlertType.value, tomato_profile]
  rw [h1, h2, h3]
  norm_num [make_decision, AlertType.value]
  decide

/-- C6: the irrigation amount and duration in the returned record are
exactly 0 whenever the decision is not IRRIGATE; when the decision is
IRRIGATE, the amount is ((crop optimal max − moisture) / 100) times the
field capacity and the duration is (amount / 10) times 60.  In
particular, for soil moisture 50, crop tomato, stage vegetative, rain
probability 20 and field capacity 100, the classification is LOW, the
decision is IRRIGATE, the amount is 30.0 mm and the duration 180
minutes. -/
theorem irrigation_amount_duration :
    (∀ (s : SoilData) (w : WeatherData) (ct gs : String) (fc : ℚ),
      ((analyze s w ct gs fc).decision ≠ .IRRIGATE →
        (analyze s w ct gs fc).irrigation_amount_mm = 0
        ∧ (analyze s w ct gs fc).irrigation_duration_minutes = 0)
      ∧ ((analyze s w ct gs fc).decision = .IRRIGATE →
        (analyze s w ct gs fc).irrigation_amount_mm
          = ((lookupCropProfile ct).moisture_optimal_max - s.soil_moisture.getD 50) / 100 * fc
        ∧ (analyze s w ct gs fc).irrigation_duration_minutes
          = (analyze s w ct gs fc).irrigation_amount_mm / 10 * 60))
    ∧ (analyze (SoilData.mk (some 50) none none none none none)
        (WeatherData.mk (some 20) none none none none) "tomato" "vegetative" 100).moisture_status
        = "LOW"
    ∧ (analyze (SoilData.mk (some 50) none none none none none)
        (WeatherData.mk (some 20) none none none none) "tomato" "vegetative" 100).decision
        = .IRRIGATE
    ∧ (analyze (SoilData.mk (some 50) none none none none none)
        (WeatherData.mk (some 20) none none none none) "tomato" "vegetative" 100).irrigation_amount_mm
        = 30
    ∧ (analyze (SoilData.mk (some 50) none none none none none)
        (WeatherData.mk (some 20) none none none none) "tomato" "vegetative" 100).irrigation_duration_minutes
        = 180 := by
  have hgen : ∀ (s : SoilData) (w : WeatherData) (ct gs : String) (fc : ℚ),
      ((analyze s w ct gs fc).decision ≠ .IRRIGATE →
        (analyze s w ct gs fc).irrigation_amount_mm = 0
        ∧ (analyze s w ct gs fc).irrigation_duration_minutes = 0)
      ∧ ((analyze s w ct gs fc).decision = .IRRIGATE →
        (analyze s w ct gs fc).irrigation_amount_mm
          = ((lookupCropProfile ct).moisture_optimal_max - s.soil_moisture.getD 50) / 100 * fc
        ∧ (analyze s w ct gs fc).irrigation_duration_minutes
          = (analyze s w ct gs fc).irrigation_amount_mm / 10 * 60) := by
    intro s w ct gs fc
    constructor
    · intro h
      constructor
      · rw [analyze_amount_def, if_neg h]
      · rw [analyze_duration_def, if_neg h]
    · intro h
      constructor
      · rw [analyze_amount_def, if_pos h]
      · rw [analyze_duration_def, if_pos h]
        rfl
  have hms : (analyze (SoilData.mk (some 50) none none none none none)
      (WeatherData.mk (some 20) none none none none) "tomato" "vegetative" 100).moisture_status
      = "LOW" := by
    rw [analyze_moisture_status_def, lookup_tomato]
    dsimp only [Option.getD]
    simp only [analyze_moisture]
    rw [sf_tomato_vegetative]
    norm_num [tomato_profile]
  have hdec := scenarioB_decision
  have hamt : (analyze (SoilData.mk (some 50) none none none none none)
      (WeatherData.mk (some 20) none none none none) "tomato" "vegetative" 100).irrigation_amount_mm
      = 30 := by
    rw [analyze_amount_def, if_pos hdec, lookup_tomato]
    norm_num [tomato_profile]
  refine ⟨hgen, hms, hdec, hamt, ?_⟩
  rw [analyze_duration_def, if_pos hdec, hamt]
  norm_num [calculate_duration]

/-- Closed witness for C6: with moisture 70 on tomato the decision is
HOLD, and the recorded irrigation amount and duration are both 0. -/
theorem irrigation_amount_duration_witness :
    (analyze (SoilData.mk (some 70) none none none none none)
        (WeatherData.mk none none none none none) "tomato" "vegetative" 100).irrigation_amount_mm
      = 0
    ∧ (analyze (SoilData.mk (some 70) none none none none none)
        (WeatherData.mk none none none none none) "tomato" "vegetative" 100).irrigation_duration_minutes
      = 0 := by
  refine (irrigation_amount_duration.1 _ _ _ _ _).1 ?_
  have h : (analyze (SoilData.mk (some 70) none none none none none)
      (WeatherData.mk none none none none none) "tomato" "vegetative" 100).decision = .HOLD := by
    rw [analyze_decision_def, lookup_tomato]
    dsimp only [Option.getD]
    have h1 : analyze_moisture 70 tomato_profile "vegetative" = "OPTIMAL" := by
      simp only [analyze_moisture]
      rw [sf_tomato_vegetative]
      norm_num [tomato_profile]
    have h2 : analyze_weather (WeatherData.mk none none none none none) = "NORMAL" := by
      simp only [analyze_weather]
      dsimp only [Option.getD]
      norm_num
    have h3 : collectAlerts 70 6.5 100 40 150 22 0 tomato_profile = [] := by
      norm_num [collectAlerts, AlertType.value, tomato_profile]
    rw [h1, h2, h3]
    norm_num [make_decision, AlertType.value]
    decide
  rw [h]
  decide

/-- C7: monotonicity of the rain-probability override — for any fixed
values of all other inputs under which `analyze` yields decision
IRRIGATE, raising the rain probability to any value strictly above 60
yields decision HOLD. -/
theorem rain_probability_override (s : SoilData) (w : WeatherData) (ct gs : String)
    (fc : ℚ) (rp : ℚ)
    (hIrr : (analyze s w ct gs fc).decision = .IRRIGATE) (hrp : 60 < rp) :
    (analyze s (WeatherData.mk (some rp) w.rain_amount_mm w.temperature w.humidity
        w.wind_speed) ct gs fc).decision = .HOLD := by
  have hlow : analyze_moisture (s.soil_moisture.getD 50) (lookupCropProfile ct) gs
      = "LOW" := by
    rw [analyze_decision_def] at hIrr
    exact make_decision_irrigate_implies_low _ _ _ _ _ _ hIrr
  rw [analyze_decision_def, hlow]
  have hws := analyze_weather_above_sixty
    (WeatherData.mk (some rp) w.rain_amount_mm w.temperature w.humidity w.wind_speed) rp
    (by simpa using hrp)
  have hsm := sensor_malfunction_never_collected (s.soil_moisture.getD 50) (s.ph.getD 6.5)
    (s.nitrogen.getD 100) (s.phosphorus.getD 40) (s.potassium.getD 150)
    (s.temperature.getD 22) rp (lookupCropProfile ct)
  rcases hws with hws | hws <;>
    simp [make_decision, AlertType.value, hws, hsm]

/-- Closed witness for C7: the scenario-B input yields IRRIGATE, and
raising its rain probability to 75 yields HOLD. -/
theorem rain_probability_override_witness :
    (analyze (SoilData.mk (some 50) none none none none none)
        (WeatherData.mk (some 75) none none none none) "tomato" "vegetative" 100).decision
      = .HOLD := by
  exact rain_probability_override
    (SoilData.mk (some 50) none none none none none)
    (WeatherData.mk (some 20) none none none none) "tomato" "vegetative" 100 75
    scenarioB_decision (by norm_num)

/-- C8: the daily evapotranspiration estimate equals
max(0, 0.0023 (airTemp + 17.8) (airTemp − humidity/10) √windSpeed
· stageFactor · 1.2), where the stage factor is the same per-growth-stage
multiplier used by the moisture classifier; hence for every temperature,
humidity, and non-negative wind speed the result is at least 0, and its
qualitative band is low below 3, moderate in [3, 7], high above 7. -/
theorem et_formula_nonneg_band (temp humidity wind : ℝ) (gs : String)
    (crop : CropProfile) (hw : 0 ≤ wind) :
    calculate_et temp humidity wind gs crop
      = max 0 (0.0023 * (temp + 17.8) * (temp - humidity / 10) * Real.sqrt wind
          * ((stage_factor crop gs : ℚ) : ℝ) * 1.2)
    ∧ 0 ≤ calculate_et temp humidity wind gs crop
    ∧ (calculate_et temp humidity wind gs crop < 3 →
        water_loss_rate (calculate_et temp humidity wind gs crop) = "low")
    ∧ (3 ≤ calculate_et temp humidity wind gs crop
        ∧ calculate_et temp humidity wind gs crop ≤ 7 →
        water_loss_rate (calculate_et temp humidity wind gs crop) = "moderate")
    ∧ (7 < calculate_et temp humidity wind gs crop →
        water_loss_rate (calculate_et temp humidity wind gs crop) = "high") := by
  have hsq : wind ^ (0.5 : ℝ) = Real.sqrt wind := by
    rw [Real.sqrt_eq_rpow]
    norm_num
  refine ⟨?_, le_max_left 0 _, ?_, ?_, ?_⟩
  · unfold calculate_et
    rw [hsq]
  · intro h
    unfold water_loss_rate
    rw [if_neg (by intro hc; linarith [hc.1]), if_pos h]
  · intro h
    unfold water_loss_rate
    rw [if_pos h]
  · intro h
    unfold water_loss_rate
    rw [if_neg (by intro hc; linarith [hc.2]), if_neg (by linarith)]

/-- Closed witness for C8: at air temperature 25, humidity 60, wind
speed 0 and stage vegetative on the default profile, the estimate is 0,
hence non-negative with band low. -/
theorem et_formula_nonneg_band_witness :
    0 ≤ calculate_et 25 60 0 "vegetative" default_profile
    ∧ water_loss_rate (calculate_et 25 60 0 "vegetative" default_profile) = "low" := by
  have h := et_formula_nonneg_band 25 60 0 "vegetative" default_profile le_rfl
  have h0 : calculate_et 25 60 0 "vegetative" default_profile = 0 := by
    rw [h.1, Real.sqrt_zero]
    norm_num
  exact ⟨h.2.1, h.2.2.1 (by rw [h0]; norm_num)⟩

/-- C9 (implicit): the irrigation amount is not guaranteed non-negative —
for crop maize at growth stage tasseling (stage-adjusted optimal minimum
77 exceeds the non-adjusted optimal maximum 75), soil moisture 76 and
rain probability 0 yield decision IRRIGATE with irrigation amount −1 mm
and duration −6 minutes, both strictly negative, in the returned
record. -/
theorem negative_irrigation_amount :
    (analyze (SoilData.mk (some 76) none none none none none)
        (WeatherData.mk none none none none none) "maize" "tasseling" 100).decision
      = .IRRIGATE
    ∧ (analyze (SoilData.mk (some 76) none none none none none)
        (WeatherData.mk none none none none none) "maize" "tasseling" 100).irrigation_amount_mm
      = -1
    ∧ (analyze (SoilData.mk (some 76) none none none none none)
        (WeatherData.mk none none none none none) "maize" "tasseling" 100).irrigation_duration_minutes
      = -6
    ∧ (analyze (SoilData.mk (some 76) none none none none none)
        (WeatherData.mk none none none none none) "maize" "tasseling" 100).irrigation_amount_mm
      < 0
    ∧ (analyze (SoilData.mk (some 76) none none none none none)
        (WeatherData.mk none none none none none) "maize" "tasseling" 100).irrigation_duration_minutes
      < 0 := by
  have hdec : (analyze (SoilData.mk (some 76) none none none none none)
      (WeatherData.mk none none none none none) "maize" "tasseling" 100).decision
      = .IRRIGATE := by
    rw [analyze_decision_def, lookup_maize]
    dsimp only [Option.getD]
    have h1 : analyze_moisture 76 maize_profile "tasseling" = "LOW" := by
      simp only [analyze_moisture]
      rw [sf_maize_tasseling]
      norm_num [maize_profile]
    have h2 : analyze_weather (WeatherData.mk none none none none none) = "NORMAL" := by
      simp only [analyze_weather]
      dsimp only [Option.getD]
      norm_num
    have h3 : collectAlerts 76 6.5 100 40 150 22 0 maize_profile
        = [AlertType.NUTRIENT_DEFICIENCY.value, AlertType.NUTRIENT_DEFICIENCY.value] := by
      norm_num [collectAlerts, AlertType.value, maize_profile]
    rw [h1, h2, h3]
    norm_num [make_decision, AlertType.value]
    decide
  have hamt : (analyze (SoilData.mk (some 76) none none none none none)
      (WeatherData.mk none none none none none) "maize" "tasseling" 100).irrigation_amount_mm
      = -1 := by
    rw [analyze_amount_def, if_pos hdec, lookup_maize]
    norm_num [maize_profile]
  have hdur : (analyze (SoilData.mk (some 76) none none none none none)
      (WeatherData.mk none none none none none) "maize" "tasseling" 100).irrigation_duration_minutes
      = -6 := by
    rw [analyze_duration_def, if_pos hdec, hamt]
    norm_num [calculate_duration]
  exact ⟨hdec, hamt, hdur, by rw [hamt]; norm_num, by rw [hdur]; norm_num⟩

/-- C10 (implicit log invariant): every call of the engine appends
exactly one decision record at the end of the shared decision log and
modifies no previously logged record — the log grows by exactly 1 and
its old prefix is unchanged, with the new response last. -/
theorem decision_log_append_one (log : List Response) (s : SoilData) (w : WeatherData)
    (ct gs : String) (fc : ℚ) :
    ((engine_analyze log s w ct gs fc).2).length = log.length + 1
    ∧ ((engine_analyze log s w ct gs fc).2).take log.length = log
    ∧ ((engine_analyze log s w ct gs fc).2).getLast?
        = some (engine_analyze log s w ct gs fc).1 := by
  refine ⟨?_, ?_, ?_⟩
  · simp [engine_analyze]
  · simp [engine_analyze, List.take_left]
  · simp [engine_analyze, List.getLast?_concat]

end Faminga
